import Mathlib

/-!
Verification of the credential-storage and authentication subsystem of
hidemyemail-cli (src/hidemyemail/auth/keychain.py, src/hidemyemail/auth/touchid.py,
src/hidemyemail/core/icloud_client.py).

The OS keychain is modelled as an association list from account to secret
within the fixed service namespace; the `security` command-line tool calls
made by the fallback methods are modelled by small functions mirroring the
tool's observable behaviour (first-match lookup, delete of the first match,
add with duplicate detection, stdout carrying the secret followed by a
newline).  The Touch ID gate and the remote iCloud capability are oracles
supplied as explicit environment records.
-/

namespace HideMyEmail

/-- The fixed service namespace string shared by all accounts
(keychain.py, SERVICE_NAME). -/
def SERVICE_NAME : String := "com.hidemyemail.cli"

/-- The OS keychain restricted to the fixed service: a list of
(account, secret) items in creation order. -/
abbrev Keychain := List (String × String)

/-- First item stored for the account, as reported by
`security find-generic-password -s SERVICE_NAME -a account`. -/
def kcFind : Keychain → String → Option String
  | [], _ => none
  | (a, w) :: rest, acct => if a == acct then some w else kcFind rest acct

/-- Python str.strip removes these characters from both ends
(ASCII whitespace; keychain.py strips the stdout of the security tool). -/
def isPyWhitespace (c : Char) : Bool :=
  c == ' ' || c == '\t' || c == '\n' || c == '\r' || c == '\x0b' || c == '\x0c'

/-- Strip on the underlying character list: right strip then left strip. -/
def stripChars (l : List Char) : List Char :=
  ((l.reverse.dropWhile isPyWhitespace).reverse).dropWhile isPyWhitespace

/-- Model of Python str.strip() with no argument. -/
def pyStrip (s : String) : String := String.mk (stripChars s.data)

/-- stdout of `security find-generic-password -w`: the stored secret
followed by a newline. -/
def secStdout (pw : String) : String := pw ++ "\n"

/-- Model of `security delete-generic-password`: removes the first matching
item; the Bool reports whether an item was found (exit status 0).  When no
item matches, stderr contains "could not be found". -/
def secDelete (kc : Keychain) (account : String) : Keychain × Bool :=
  match kcFind kc account with
  | some _ => (kc.eraseP (fun p => p.1 == account), true)
  | none => (kc, false)

/-- Result of `security add-generic-password`. -/
inductive AddResult where
  | ok
  | duplicateItem
deriving Repr, DecidableEq

/-- Replace the secret of every item belonging to the account. -/
def overwriteEntry (account pw : String) (p : String × String) : String × String :=
  if p.1 == account then (account, pw) else p

/-- Model of `security add-generic-password` (`update` is the -U flag):
a pre-existing item for the account is an error without -U and is
overwritten with -U; otherwise the item is appended. -/
def secAdd (kc : Keychain) (account pw : String) (update : Bool) :
    Keychain × AddResult :=
  match kcFind kc account with
  | some _ =>
      if update then
        (kc.map (overwriteEntry account pw), AddResult.ok)
      else
        (kc, AddResult.duplicateItem)
  | none => (kc ++ [(account, pw)], AddResult.ok)

/-- Touch ID environment: the outcome of touchid.is_available and of
touchid.authenticate for the single gate invocation an operation makes,
and the rendered error text str(error) when authentication fails. -/
structure GateEnv where
  available : Bool
  grant : Bool
  denyMsg : String
deriving Repr, DecidableEq

/-- Result of KeychainManager.get_password: the returned value, the
_last_error field, and whether the Touch ID verification respectively the
underlying keychain retrieval actually ran. -/
structure GetOut where
  value : Option String
  lastError : Option String
  verifyCalled : Bool
  retrieveCalled : Bool
deriving Repr, DecidableEq

/-- KeychainManager._get_password_fallback: runs the security tool and on
success returns stdout.strip(); a missing item sets _last_error to the
not-found text and returns None. -/
def get_password_fallback (kc : Keychain) (account : String) :
    Option String × Option String :=
  match kcFind kc account with
  | some pw => (some (pyStrip (secStdout pw)), none)
  | none => (none, some "No credentials found for this account")

/-- KeychainManager.get_password: verifies with Touch ID first when the
gate is available; on denial returns None without touching the keychain;
otherwise falls through to the security-tool retrieval. -/
def get_password (g : GateEnv) (kc : Keychain) (account : String) : GetOut :=
  if g.available then
    if g.grant then
      let r := get_password_fallback kc account
      { value := r.1, lastError := r.2, verifyCalled := true, retrieveCalled := true }
    else
      { value := none,
        lastError := some ("Touch ID authentication failed: " ++ g.denyMsg),
        verifyCalled := true, retrieveCalled := false }
  else
    let r := get_password_fallback kc account
    { value := r.1, lastError := r.2, verifyCalled := false, retrieveCalled := true }

/-- Result of KeychainManager.store_password: the keychain afterwards, the
returned Bool and the _last_error field. -/
structure StoreOut where
  kc : Keychain
  success : Bool
  lastError : Option String
deriving Repr, DecidableEq

/-- KeychainManager._store_password_fallback (the path store_password
always takes): delete any existing item, ignoring the outcome, then add
the new item with -U. -/
def store_password (kc : Keychain) (account pw : String) : StoreOut :=
  let d := secDelete kc account
  let a := secAdd d.1 account pw true
  match a.2 with
  | AddResult.ok => { kc := a.1, success := true, lastError := none }
  | AddResult.duplicateItem =>
      { kc := a.1, success := false,
        lastError := some "security command failed: duplicate item" }

/-- KeychainManager.has_password: existence probe by exit status of the
security tool, with no Touch ID involvement. -/
def has_password (kc : Keychain) (account : String) : Bool :=
  (kcFind kc account).isSome

/-- The fixed static table mapping Security framework status codes to
human-readable messages (keychain.py, SEC_ERROR_MESSAGES), verbatim. -/
def SEC_ERROR_MESSAGES : List (Int × String) :=
  [ (0, "Success"),
    (-4, "Function or operation not implemented"),
    (-25291, "No keychain is available"),
    (-25292, "The specified keychain is not a valid keychain file"),
    (-25293, "The specified keychain could not be opened"),
    (-25294, "A duplicate keychain item already exists"),
    (-25295, "The specified item could not be found in the keychain"),
    (-25296, "Keychain interaction is not allowed by the caller"),
    (-25297, "The keychain interaction was blocked by the user"),
    (-25298, "The caller does not have access to the keychain item"),
    (-25299, "The specified data is invalid for keychain"),
    (-25300, "No default keychain exists"),
    (-25308, "Interaction with the Security Server is not allowed"),
    (-26275, "An authorization/authentication was canceled"),
    (-26276, "Authorization/Authentication failed"),
    (-34018, "A required entitlement is missing (code signing issue)"),
    (-50, "One or more parameters passed were not valid"),
    (-67030, "Device passcode is not set (required for biometric protection)") ]

/-- First-match lookup in an Int-keyed table (Python dict membership for
the literal table above, whose keys are distinct). -/
def secLookup : List (Int × String) → Int → Option String
  | [], _ => none
  | (k, m) :: rest, status => if k == status then some m else secLookup rest status

/-- keychain.py get_security_error_message: table hit renders the message
with the raw code appended; any other code renders the generic unknown
message, still carrying the raw code. -/
def get_security_error_message (status : Int) : String :=
  match secLookup SEC_ERROR_MESSAGES status with
  | some msg => msg ++ " (error " ++ toString status ++ ")"
  | none => "Unknown security error (error " ++ toString status ++ ")"

/-- The constructed PyiCloudService instance, as far as the manager
observes it: the apple_id it was built for and the requires_2fa and
is_trusted_session attributes it reports. -/
structure RemoteClient where
  appleId : String
  requires_2fa : Bool
  is_trusted_session : Bool
deriving Repr, DecidableEq

/-- The remote iCloud capability at the boundary of spec section 6:
whether constructing PyiCloudService(apple_id, password, ...) succeeds
(false means PyiCloudFailedLoginException), whether the constructed
client reports a two-factor requirement, which codes validate_2fa_code
accepts, and whether the session is already trusted. -/
structure RemoteEnv where
  loginOk : String → String → Bool
  requires2fa : Bool
  accepts2faCode : String → Bool
  trusted : Bool

/-- The client the capability constructs for a given username. -/
def mkClient (renv : RemoteEnv) (username : String) : RemoteClient :=
  { appleId := username, requires_2fa := renv.requires2fa,
    is_trusted_session := renv.trusted }

/-- ICloudClient state together with the durable stores it touches: the
OS keychain, the set of accounts owning a SessionArtifact (a cookie entry
named by the account under COOKIE_DIR), and the mutable _api and
_username fields. -/
structure ClientState where
  keychain : Keychain
  sessions : List String
  _api : Option RemoteClient
  _username : Option String
deriving Repr, DecidableEq

/-- Record a SessionArtifact for the account (overwrite keeps the set). -/
def insertSession (u : String) (ss : List String) : List String :=
  if u ∈ ss then ss else u :: ss

/-- Modelled from the spec (section 3 and section 6): the SessionArtifact
is an opaque blob written by the remote login capability, created or
overwritten only on successful authentication or successful two-factor
trust.  Construction therefore records the artifact exactly when the
login succeeded with no two-factor requirement; trust_session records it
after two-factor trust. -/
def sessionsAfterConstruction (renv : RemoteEnv) (username : String)
    (ss : List String) : List String :=
  if renv.requires2fa then ss else insertSession username ss

/-- Outcome of ICloudClient.authenticate: normal return True, or one of
the raised exceptions with its message. -/
inductive AuthResult where
  | ok
  | credentialsNotFound (msg : String)
  | twoFactorRequired (msg : String)
  | authenticationError (msg : String)
deriving Repr, DecidableEq

/-- Which external operations an authenticate call performed: whether the
remote login capability was invoked (PyiCloudService constructed), whether
trust_session was called, and how many codes were submitted to
validate_2fa_code. -/
structure AuthEffects where
  loginCalled : Bool
  trustCalled : Bool
  codeSubmits : Nat
deriving Repr, DecidableEq

def noEffects : AuthEffects :=
  { loginCalled := false, trustCalled := false, codeSubmits := 0 }

/-- ICloudClient.authenticate (icloud_client.py lines 43-105), traced
statement by statement: set _username; resolve the password from the
keychain when none is given, raising CredentialsNotFoundError when that
yields None; construct PyiCloudService (login failure raises
AuthenticationError and leaves _api untouched); on requires_2fa with no
callback raise TwoFactorRequiredError; otherwise submit the one code the
callback yields, raising AuthenticationError on rejection, and call
trust_session when the session is not already trusted. -/
def authenticate (genv : GateEnv) (renv : RemoteEnv) (st : ClientState)
    (username : String) (password : Option String)
    (twofa_callback : Option (Unit → String)) :
    AuthResult × ClientState × AuthEffects :=
  let st1 : ClientState := { st with _username := some username }
  let pw? : Option String :=
    match password with
    | some p => some p
    | none => (get_password genv st1.keychain username).value
  match pw? with
  | none =>
      (AuthResult.credentialsNotFound
        "No stored credentials found. Run hide-my-email setup first.",
       st1, noEffects)
  | some pw =>
      if renv.loginOk username pw then
        let client := mkClient renv username
        let st2 : ClientState :=
          { st1 with _api := some client,
                     sessions := sessionsAfterConstruction renv username st1.sessions }
        if client.requires_2fa then
          match twofa_callback with
          | none =>
              (AuthResult.twoFactorRequired "2FA required but no callback provided",
               st2, { noEffects with loginCalled := true })
          | some cb =>
              let code := cb ()
              if renv.accepts2faCode code then
                if client.is_trusted_session then
                  (AuthResult.ok, st2,
                   { loginCalled := true, trustCalled := false, codeSubmits := 1 })
                else
                  (AuthResult.ok,
                   { st2 with sessions := insertSession username st2.sessions },
                   { loginCalled := true, trustCalled := true, codeSubmits := 1 })
              else
                (AuthResult.authenticationError "Invalid 2FA code", st2,
                 { loginCalled := true, trustCalled := false, codeSubmits := 1 })
        else
          (AuthResult.ok, st2, { noEffects with loginCalled := true })
      else
        (AuthResult.authenticationError "Login failed", st1,
         { noEffects with loginCalled := true })

/-- The api property (icloud_client.py lines 29-36): raises
AuthenticationError when _api is None, otherwise returns the client. -/
def api (st : ClientState) : Except String RemoteClient :=
  match st._api with
  | none => Except.error "Not authenticated. Run hide-my-email setup first."
  | some c => Except.ok c

/-- Result of ICloudClient.is_session_valid: the Bool it returns, the
state afterwards, and whether the Touch ID verification ran during the
probe. -/
structure ProbeOut where
  valid : Bool
  state : ClientState
  verifyCalled : Bool
deriving Repr, DecidableEq

/-- ICloudClient.is_session_valid (icloud_client.py lines 107-141): false
without a keychain entry; false without a cookie entry; otherwise fetch
the password through the gate, reconstruct the client from it when it is
non-empty, and report whether the reconstruction needs no fresh
two-factor challenge.  Every exception inside the try block (modelled by
a failing construction) is swallowed and yields false with the in-memory
fields unchanged. -/
def is_session_valid (genv : GateEnv) (renv : RemoteEnv) (st : ClientState)
    (username : String) : ProbeOut :=
  if has_password st.keychain username then
    if username ∈ st.sessions then
      let g := get_password genv st.keychain username
      match g.value with
      | some pw =>
          if pw.isEmpty then { valid := false, state := st, verifyCalled := g.verifyCalled }
          else if renv.loginOk username pw then
            let client := mkClient renv username
            { valid := !client.requires_2fa,
              state :=
                { st with
                    _api := some client, _username := some username,
                    sessions := sessionsAfterConstruction renv username st.sessions },
              verifyCalled := g.verifyCalled }
          else { valid := false, state := st, verifyCalled := g.verifyCalled }
      | none => { valid := false, state := st, verifyCalled := g.verifyCalled }
    else { valid := false, state := st, verifyCalled := false }
  else { valid := false, state := st, verifyCalled := false }

/-! Concrete sample environments and states used to exercise the model at
specific points. -/

/-- A gate environment with Touch ID unavailable. -/
def gateOff : GateEnv := { available := false, grant := false, denyMsg := "" }

/-- A gate environment that verifies successfully. -/
def gateYes : GateEnv := { available := true, grant := true, denyMsg := "" }

/-- A gate environment that denies verification. -/
def gateNo : GateEnv := { available := true, grant := false, denyMsg := "denied" }

/-- A remote capability that accepts every login, requires two-factor
verification and accepts exactly the code 123456. -/
def remote2fa : RemoteEnv :=
  { loginOk := fun _ _ => true, requires2fa := true,
    accepts2faCode := fun c => c == "123456", trusted := false }

/-- A remote capability that accepts every login with no two-factor
requirement. -/
def remotePlain : RemoteEnv :=
  { loginOk := fun _ _ => true, requires2fa := false,
    accepts2faCode := fun _ => true, trusted := false }

/-- A remote capability whose login always fails. -/
def remoteDown : RemoteEnv :=
  { loginOk := fun _ _ => false, requires2fa := false,
    accepts2faCode := fun _ => false, trusted := false }

/-- A state with a secret on file for alice and no SessionArtifact. -/
def stAlice : ClientState :=
  { keychain := [("alice", "p@ss1")], sessions := [], _api := none, _username := none }

/-- A state with both a secret on file and a SessionArtifact for alice. -/
def stAliceSession : ClientState :=
  { keychain := [("alice", "p@ss1")], sessions := ["alice"], _api := none,
    _username := none }

/-- A state with no secret on file but a stray SessionArtifact for alice. -/
def stStray : ClientState :=
  { keychain := [], sessions := ["alice"], _api := none, _username := none }

/-! Helper lemmas about the keychain model. -/

theorem kcFind_map_overwrite (l : Keychain) (a w : String) :
    kcFind (l.map (overwriteEntry a w)) a =
      match kcFind l a with
      | some _ => some w
      | none => none := by
  induction l with
  | nil => rfl
  | cons hd tl ih =>
      rcases hd with ⟨b, x⟩
      simp only [List.map_cons]
      cases hba : b == a
      · have hhead : overwriteEntry a w (b, x) = (b, x) := by
          simp [overwriteEntry, hba]
        rw [hhead]
        simp only [kcFind, hba]
        simpa [kcFind, hba] using ih
      · have hhead : overwriteEntry a w (b, x) = (a, w) := by
          simp [overwriteEntry, hba]
        rw [hhead]
        simp [kcFind, hba]

theorem kcFind_append_last (l : Keychain) (a w : String)
    (h : kcFind l a = none) :
    kcFind (l ++ [(a, w)]) a = some w := by
  induction l with
  | nil => simp [kcFind]
  | cons hd tl ih =>
      rcases hd with ⟨b, x⟩
      by_cases hb : b = a
      · subst hb
        simp [kcFind] at h
      · simp [kcFind, hb] at h ⊢
        exact ih h

theorem store_password_eq (kc : Keychain) (a s : String) :
    store_password kc a s =
      { kc :=
          match kcFind (secDelete kc a).1 a with
          | some _ => (secDelete kc a).1.map (overwriteEntry a s)
          | none => (secDelete kc a).1 ++ [(a, s)],
        success := true, lastError := none } := by
  unfold store_password
  cases h2 : kcFind (secDelete kc a).1 a <;> simp [secAdd, h2]

theorem kcFind_store (kc : Keychain) (a s : String) :
    kcFind (store_password kc a s).kc a = some s := by
  rw [store_password_eq]
  cases h2 : kcFind (secDelete kc a).1 a with
  | none =>
      simp only [h2]
      exact kcFind_append_last _ _ _ h2
  | some v =>
      simp only [h2]
      have h3 := kcFind_map_overwrite (secDelete kc a).1 a s
      rw [h2] at h3
      exact h3

theorem store_success (kc : Keychain) (a s : String) :
    (store_password kc a s).success = true := by
  rw [store_password_eq]

theorem pyStrip_secStdout (s : String) : pyStrip (secStdout s) = pyStrip s := by
  have hnl : isPyWhitespace (Char.ofNat 10) = true := by decide
  rcases s with ⟨l⟩
  show pyStrip (String.mk l ++ String.mk [Char.ofNat 10]) = pyStrip (String.mk l)
  have happ : String.mk l ++ String.mk [Char.ofNat 10] = String.mk (l ++ [Char.ofNat 10]) := rfl
  rw [happ]
  simp [pyStrip, stripChars, List.dropWhile_cons, hnl]

theorem get_after_store (g : GateEnv) (kc : Keychain) (a s : String)
    (hg : g.available = false ∨ g.grant = true) :
    (get_password g (store_password kc a s).kc a).value = some (pyStrip s) := by
  have h := kcFind_store kc a s
  rcases hg with hg | hg
  · simp [get_password, hg, get_password_fallback, h, pyStrip_secStdout]
  · cases havail : g.available <;>
      simp [get_password, hg, havail, get_password_fallback, h, pyStrip_secStdout]

theorem get_password_none (g : GateEnv) (kc : Keychain) (a : String)
    (h : kcFind kc a = none ∨ (g.available = true ∧ g.grant = false)) :
    (get_password g kc a).value = none := by
  rcases h with h | ⟨ha, hgr⟩
  · cases havail : g.available
    · simp [get_password, havail, get_password_fallback, h]
    · cases hgr : g.grant <;>
        simp [get_password, havail, hgr, get_password_fallback, h]
  · simp [get_password, ha, hgr]

theorem get_password_verifyCalled (g : GateEnv) (kc : Keychain) (a : String)
    (h : g.available = true) :
    (get_password g kc a).verifyCalled = true := by
  cases hgr : g.grant <;> simp [get_password, h, hgr]

/-- Sessions are untouched by every authenticate call that does not end in
a normal return: the artifact-writing steps sit only on confirmed-success
paths. -/
theorem authenticate_sessions_of_failure (genv : GateEnv) (renv : RemoteEnv)
    (st : ClientState) (u : String) (p : Option String)
    (cb : Option (Unit → String)) (r : AuthResult) (st2 : ClientState)
    (eff : AuthEffects)
    (hE : authenticate genv renv st u p cb = (r, st2, eff))
    (h : r ≠ AuthResult.ok) :
    st2.sessions = st.sessions := by
  simp only [authenticate] at hE
  repeat' split at hE
  all_goals cases hE
  all_goals simp_all [mkClient, sessionsAfterConstruction, insertSession, noEffects]

/-- A successful probe leaves the reconstructed client in _api and the
probed username in _username. -/
theorem is_session_valid_true_state (genv : GateEnv) (renv : RemoteEnv)
    (st : ClientState) (u : String) (out : ProbeOut)
    (hE : is_session_valid genv renv st u = out) (h : out.valid = true) :
    out.state._api = some (mkClient renv u) ∧ out.state._username = some u := by
  simp only [is_session_valid] at hE
  repeat' split at hE
  all_goals subst hE
  all_goals simp_all [mkClient]

/-! Theorems settling the claims. -/

/-- C1: when the remote capability accepts the login but reports that
two-factor verification is required and authenticate is called with no
callback, the call ends in TwoFactorRequiredError and no SessionArtifact
exists for the account afterwards (none having existed before); and, in
general, an authenticate call that does not end in success leaves the set
of SessionArtifacts exactly as it was, so an artifact is never written
without confirmed success including two-factor trust when required. -/
theorem C1_twofa_required_no_artifact (genv : GateEnv) (renv : RemoteEnv)
    (st : ClientState) (a s : String)
    (hlogin : renv.loginOk a s = true) (h2fa : renv.requires2fa = true)
    (hfresh : a ∉ st.sessions) :
    (authenticate genv renv st a (some s) none).1 =
      AuthResult.twoFactorRequired "2FA required but no callback provided"
    ∧ a ∉ (authenticate genv renv st a (some s) none).2.1.sessions
    ∧ ∀ (genv2 : GateEnv) (renv2 : RemoteEnv) (st2 : ClientState)
        (u : String) (p : Option String) (cb : Option (Unit → String)),
        (authenticate genv2 renv2 st2 u p cb).1 ≠ AuthResult.ok →
        (authenticate genv2 renv2 st2 u p cb).2.1.sessions = st2.sessions := by
  refine ⟨?_, ?_, ?_⟩
  · simp [authenticate, hlogin, mkClient, h2fa]
  · simpa [authenticate, hlogin, mkClient, h2fa, sessionsAfterConstruction]
      using hfresh
  · intro genv2 renv2 st2 u p cb h
    exact authenticate_sessions_of_failure genv2 renv2 st2 u p cb _ _ _ rfl h

/-- Witness for C1 at a concrete account, secret, state and capability. -/
theorem C1_witness :
    (authenticate gateOff remote2fa stAlice "alice" (some "p@ss1") none).1 =
      AuthResult.twoFactorRequired "2FA required but no callback provided"
    ∧ "alice" ∉ (authenticate gateOff remote2fa stAlice "alice" (some "p@ss1") none).2.1.sessions :=
  ⟨(C1_twofa_required_no_artifact gateOff remote2fa stAlice "alice" "p@ss1"
      rfl rfl (by decide)).1,
   (C1_twofa_required_no_artifact gateOff remote2fa stAlice "alice" "p@ss1"
      rfl rfl (by decide)).2.1⟩

/-- C2: a two-factor code the capability rejects makes authenticate end in
AuthenticationError "Invalid 2FA code" after submitting exactly one code,
with trust_session never called and the SessionArtifacts unchanged. -/
theorem C2_invalid_code (genv : GateEnv) (renv : RemoteEnv) (st : ClientState)
    (a s : String) (cb : Unit → String)
    (hlogin : renv.loginOk a s = true) (h2fa : renv.requires2fa = true)
    (hbad : renv.accepts2faCode (cb ()) = false) :
    (authenticate genv renv st a (some s) (some cb)).1 =
      AuthResult.authenticationError "Invalid 2FA code"
    ∧ (authenticate genv renv st a (some s) (some cb)).2.2.codeSubmits = 1
    ∧ (authenticate genv renv st a (some s) (some cb)).2.2.trustCalled = false
    ∧ (authenticate genv renv st a (some s) (some cb)).2.1.sessions = st.sessions := by
  refine ⟨?_, ?_, ?_, ?_⟩ <;>
    simp [authenticate, hlogin, mkClient, h2fa, hbad, sessionsAfterConstruction]

/-- Witness for C2: the code 000000 is rejected by the sample capability. -/
theorem C2_witness :
    (authenticate gateOff remote2fa stAlice "alice" (some "p@ss1")
        (some (fun _ => "000000"))).1 =
      AuthResult.authenticationError "Invalid 2FA code"
    ∧ (authenticate gateOff remote2fa stAlice "alice" (some "p@ss1")
        (some (fun _ => "000000"))).2.2.codeSubmits = 1
    ∧ (authenticate gateOff remote2fa stAlice "alice" (some "p@ss1")
        (some (fun _ => "000000"))).2.2.trustCalled = false
    ∧ (authenticate gateOff remote2fa stAlice "alice" (some "p@ss1")
        (some (fun _ => "000000"))).2.1.sessions = stAlice.sessions :=
  C2_invalid_code gateOff remote2fa stAlice "alice" "p@ss1" (fun _ => "000000")
    rfl rfl (by decide)

/-- C3: get_password invokes the Touch ID verification only when the gate
reports availability, and an available gate that denies verification makes
get_password return the biometric failure without ever reading the
underlying store. -/
theorem C3_gate_precedence (g : GateEnv) (kc : Keychain) (a : String) :
    ((get_password g kc a).verifyCalled = true → g.available = true)
    ∧ (g.available = true → g.grant = false →
        (get_password g kc a).value = none
        ∧ (get_password g kc a).lastError =
            some ("Touch ID authentication failed: " ++ g.denyMsg)
        ∧ (get_password g kc a).retrieveCalled = false) := by
  constructor
  · intro h
    cases hav : g.available
    · exfalso
      simp [get_password, hav] at h
    · rfl
  · intro hav hgr
    simp [get_password, hav, hgr]

/-- Witness for C3: a denying gate over a keychain that does hold an item
for the account. -/
theorem C3_witness :
    (get_password gateNo [("alice", "p@ss1")] "alice").value = none
    ∧ (get_password gateNo [("alice", "p@ss1")] "alice").lastError =
        some ("Touch ID authentication failed: " ++ gateNo.denyMsg)
    ∧ (get_password gateNo [("alice", "p@ss1")] "alice").retrieveCalled = false :=
  (C3_gate_precedence gateNo [("alice", "p@ss1")] "alice").2 rfl rfl

/-- C4 counterexample: storing the secret " p" (leading space) for an
account succeeds, yet get with the gate unavailable returns "p": the
strip applied to the stdout of the security tool also removes whitespace
belonging to the secret itself, so the round trip is not the identity on
all secrets. -/
theorem C4_counterexample :
    (store_password [] "a" " p").success = true
    ∧ (get_password gateOff (store_password [] "a" " p").kc "a").value ≠ some " p"
    ∧ (get_password gateOff (store_password [] "a" " p").kc "a").value = some "p" := by
  refine ⟨?_, ?_, ?_⟩ <;> decide

/-- C4 (amended): for every secret that carries no leading or trailing
whitespace, a successful store followed by get with the biometric gate
granted or unavailable returns exactly that secret. -/
theorem C4_roundtrip (g : GateEnv) (kc : Keychain) (a s : String)
    (hs : pyStrip s = s) (hg : g.available = false ∨ g.grant = true) :
    (store_password kc a s).success = true
    ∧ (get_password g (store_password kc a s).kc a).value = some s := by
  refine ⟨store_success kc a s, ?_⟩
  rw [get_after_store g kc a s hg, hs]

/-- Witness for C4 at a concrete whitespace-free secret. -/
theorem C4_witness :
    (store_password [] "alice" "p@ss1").success = true
    ∧ (get_password gateOff (store_password [] "alice" "p@ss1").kc "alice").value =
        some "p@ss1" :=
  C4_roundtrip gateOff [] "alice" "p@ss1" (by decide) (Or.inl rfl)

/-- C5 counterexample: store "x" then store " x " for the same account,
and get returns "x" — the first secret, not the second — because the
strip of the retrieval path removes the surrounding whitespace of the
second secret. -/
theorem C5_counterexample :
    (get_password gateOff
        (store_password (store_password [] "a" "x").kc "a" " x ").kc "a").value =
      some "x"
    ∧ (get_password gateOff
        (store_password (store_password [] "a" "x").kc "a" " x ").kc "a").value ≠
      some " x " := by
  constructor <;> decide

/-- C5 (amended): store(a, s1) then store(a, s2) then get(a) returns the
whitespace-stripped s2 — hence exactly s2, and never s1, whenever s2
carries no surrounding whitespace and differs from s1 — and neither store
reports any error: the delete step of the delete-then-add sequence is
ignored even when it finds nothing, so no duplicate-entry error can
occur. -/
theorem C5_overwrite (g : GateEnv) (kc : Keychain) (a s1 s2 : String)
    (hs2 : pyStrip s2 = s2) (hne : s1 ≠ s2)
    (hg : g.available = false ∨ g.grant = true) :
    (store_password kc a s1).success = true
    ∧ (store_password (store_password kc a s1).kc a s2).success = true
    ∧ (get_password g (store_password (store_password kc a s1).kc a s2).kc a).value =
        some s2
    ∧ (get_password g (store_password (store_password kc a s1).kc a s2).kc a).value ≠
        some s1 := by
  have hget := get_after_store g (store_password kc a s1).kc a s2 hg
  rw [hs2] at hget
  refine ⟨store_success kc a s1, store_success _ a s2, hget, ?_⟩
  rw [hget]
  exact fun h => hne (Option.some.inj h).symm

/-- Witness for C5 at concrete distinct whitespace-free secrets. -/
theorem C5_witness :
    (store_password [] "alice" "old").success = true
    ∧ (store_password (store_password [] "alice" "old").kc "alice" "new").success = true
    ∧ (get_password gateOff
        (store_password (store_password [] "alice" "old").kc "alice" "new").kc
        "alice").value = some "new"
    ∧ (get_password gateOff
        (store_password (store_password [] "alice" "old").kc "alice" "new").kc
        "alice").value ≠ some "old" :=
  C5_overwrite gateOff [] "alice" "old" "new" (by decide) (by decide) (Or.inl rfl)

/-- C6: with nothing stored for the account — or with the gate denying —
authenticate without an explicit password ends in CredentialsNotFoundError
and never invokes the remote login capability. -/
theorem C6_no_credentials (genv : GateEnv) (renv : RemoteEnv) (st : ClientState)
    (a : String) (cb : Option (Unit → String))
    (h : kcFind st.keychain a = none ∨ (genv.available = true ∧ genv.grant = false)) :
    (authenticate genv renv st a none cb).1 =
      AuthResult.credentialsNotFound
        "No stored credentials found. Run hide-my-email setup first."
    ∧ (authenticate genv renv st a none cb).2.2.loginCalled = false := by
  have hv := get_password_none genv st.keychain a h
  constructor <;> simp [authenticate, hv, noEffects]

/-- Witness for C6 on an empty keychain. -/
theorem C6_witness :
    (authenticate gateOff remote2fa stStray "alice" none none).1 =
      AuthResult.credentialsNotFound
        "No stored credentials found. Run hide-my-email setup first."
    ∧ (authenticate gateOff remote2fa stStray "alice" none none).2.2.loginCalled = false :=
  C6_no_credentials gateOff remote2fa stStray "alice" none (Or.inl rfl)

/-- C7: is_session_valid is false whenever no keychain entry exists for
the account, regardless of any SessionArtifact; false whenever no
SessionArtifact exists; false whenever the remote reconstruction fails
(the exception inside the probe is swallowed — the probe is a total
Bool-valued function, so nothing propagates); and true only when the
reconstructed client requires no fresh two-factor challenge. -/
theorem C7_session_validity (genv : GateEnv) (renv : RemoteEnv)
    (st : ClientState) (u : String) :
    (kcFind st.keychain u = none → (is_session_valid genv renv st u).valid = false)
    ∧ (u ∉ st.sessions → (is_session_valid genv renv st u).valid = false)
    ∧ ((∀ p, renv.loginOk u p = false) →
        (is_session_valid genv renv st u).valid = false)
    ∧ ((is_session_valid genv renv st u).valid = true → renv.requires2fa = false) := by
  refine ⟨?_, ?_, ?_, ?_⟩
  · intro h
    simp [is_session_valid, has_password, h]
  · intro h
    by_cases h1 : has_password st.keychain u = true <;>
      simp [is_session_valid, h1, h]
  · intro hno
    simp only [is_session_valid]
    repeat' split
    all_goals simp_all [mkClient]
  · intro hvalid
    simp only [is_session_valid] at hvalid
    repeat' split at hvalid
    all_goals simp_all [mkClient]

/-- Witness for C7: no keychain entry but a stray SessionArtifact. -/
theorem C7_witness :
    (is_session_valid gateOff remote2fa stStray "alice").valid = false :=
  (C7_session_validity gateOff remote2fa stStray "alice").1 rfl

/-- C8 counterexample: the status 12345 lies outside the table and the
mapping renders it as "Unknown security error (error 12345)", not as the
claimed literal "unknown error (code 12345)". -/
theorem C8_counterexample :
    get_security_error_message 12345 ≠ "unknown error (code 12345)"
    ∧ get_security_error_message 12345 = "Unknown security error (error 12345)" := by
  constructor <;> decide

/-- C8 (amended): a status code in the fixed static table renders as the
table message followed by " (error N)" with the raw code N; a code
outside the table renders as "Unknown security error (error N)"; in both
cases the rendered text ends with the decimal raw code and a closing
parenthesis, so no code is ever silently dropped. -/
theorem C8_error_table (n : Int) :
    (∀ m, (n, m) ∈ SEC_ERROR_MESSAGES →
        get_security_error_message n = m ++ " (error " ++ toString n ++ ")")
    ∧ (secLookup SEC_ERROR_MESSAGES n = none →
        get_security_error_message n = "Unknown security error (error " ++ toString n ++ ")")
    ∧ ∃ pre, get_security_error_message n = pre ++ toString n ++ ")" := by
  refine ⟨?_, ?_, ?_⟩
  · intro m hm
    fin_cases hm <;> rfl
  · intro h
    simp [get_security_error_message, h]
  · cases hl : secLookup SEC_ERROR_MESSAGES n with
    | some m =>
        exact ⟨m ++ " (error ", by simp [get_security_error_message, hl]⟩
    | none =>
        exact ⟨"Unknown security error (error ",
               by simp [get_security_error_message, hl]⟩

/-- Witness for C8 at the not-found code of the table. -/
theorem C8_witness :
    get_security_error_message (-25295) =
      "The specified item could not be found in the keychain" ++ " (error " ++
        toString (-25295 : Int) ++ ")" :=
  (C8_error_table (-25295)).1 "The specified item could not be found in the keychain"
    (by decide)

/-- C9: when authenticate ends in the invalid-two-factor-code error, the
in-memory state was already mutated before the raise: _username holds the
attempted username, _api holds the freshly constructed client, and the
api property afterwards returns that client instead of raising the
not-authenticated error. -/
theorem C9_failed_auth_mutates (genv : GateEnv) (renv : RemoteEnv)
    (st : ClientState) (a s : String) (cb : Unit → String)
    (hlogin : renv.loginOk a s = true) (h2fa : renv.requires2fa = true)
    (hbad : renv.accepts2faCode (cb ()) = false) :
    (authenticate genv renv st a (some s) (some cb)).1 =
      AuthResult.authenticationError "Invalid 2FA code"
    ∧ (authenticate genv renv st a (some s) (some cb)).2.1._username = some a
    ∧ (authenticate genv renv st a (some s) (some cb)).2.1._api =
        some (mkClient renv a)
    ∧ api (authenticate genv renv st a (some s) (some cb)).2.1 =
        Except.ok (mkClient renv a) := by
  refine ⟨?_, ?_, ?_, ?_⟩ <;>
    simp [authenticate, api, hlogin, mkClient, h2fa, hbad]

/-- Witness for C9 at a concrete rejected code. -/
theorem C9_witness :
    (authenticate gateOff remote2fa stAlice "alice" (some "p@ss1")
        (some (fun _ => "000000"))).1 =
      AuthResult.authenticationError "Invalid 2FA code"
    ∧ (authenticate gateOff remote2fa stAlice "alice" (some "p@ss1")
        (some (fun _ => "000000"))).2.1._username = some "alice"
    ∧ (authenticate gateOff remote2fa stAlice "alice" (some "p@ss1")
        (some (fun _ => "000000"))).2.1._api = some (mkClient remote2fa "alice")
    ∧ api (authenticate gateOff remote2fa stAlice "alice" (some "p@ss1")
        (some (fun _ => "000000"))).2.1 = Except.ok (mkClient remote2fa "alice") :=
  C9_failed_auth_mutates gateOff remote2fa stAlice "alice" "p@ss1"
    (fun _ => "000000") rfl rfl (by decide)

/-- C10: when both a keychain entry and a SessionArtifact exist for the
account, is_session_valid reaches get_password and hence runs the Touch ID
verification whenever the gate is available — unlike the gate-free
has_password probe — and a successful probe overwrites the in-memory _api
and _username with the reconstructed client. -/
theorem C10_probe_side_effects (genv : GateEnv) (renv : RemoteEnv)
    (st : ClientState) (u : String)
    (hkc : kcFind st.keychain u ≠ none) (hs : u ∈ st.sessions)
    (hav : genv.available = true) :
    (is_session_valid genv renv st u).verifyCalled = true
    ∧ ((is_session_valid genv renv st u).valid = true →
        (is_session_valid genv renv st u).state._api = some (mkClient renv u)
        ∧ (is_session_valid genv renv st u).state._username = some u) := by
  have hvc := get_password_verifyCalled genv st.keychain u hav
  have hhp : has_password st.keychain u = true := by
    simp [has_password, Option.isSome_iff_ne_none, hkc]
  constructor
  · unfold is_session_valid
    simp only [hhp, hs]
    repeat' split
    all_goals simp_all
  · intro hvalid
    exact is_session_valid_true_state genv renv st u _ rfl hvalid

/-- Witness for C10: gate available and granted, remote with no fresh
two-factor requirement, both stores populated. -/
theorem C10_witness :
    (is_session_valid gateYes remotePlain stAliceSession "alice").verifyCalled = true
    ∧ ((is_session_valid gateYes remotePlain stAliceSession "alice").valid = true →
        (is_session_valid gateYes remotePlain stAliceSession "alice").state._api =
          some (mkClient remotePlain "alice")
        ∧ (is_session_valid gateYes remotePlain stAliceSession "alice").state._username =
          some "alice") :=
  C10_probe_side_effects gateYes remotePlain stAliceSession "alice"
    (by decide) (by decide) rfl

end HideMyEmail
